import Mathlib

/-!
Verification of the LE_ASCII-TRANSFORMER core: the grid geometry resolver and
the tone-to-glyph mapper of `processImage` (AsciiCanvas component), together
with the `CHAR_SETS` ramp table and the `AsciiSettings` record (types.ts).

The embedding follows the source line by line: JavaScript number arithmetic is
modelled over ℚ (every constant in the source is an exact decimal), `Math.floor`
is `Int.floor`, `Math.min`/`Math.max` are `min`/`max`, and the JS string index
`chars[charIndex]`, which yields `undefined` out of range, returns `Option Char`.
-/

namespace LeAscii

/-- The `charSetMode` selector of `AsciiSettings` (types.ts). -/
inductive CharSetMode where
  | halftone
  | ascii
  | binary
  | blocks
  | detail
deriving DecidableEq

/-- The `AsciiSettings` record (types.ts).  `resolution ∈ [0.1,1.0]`,
`contrast ∈ [0.5,3.0]`, `brightness ∈ [-100,100]` are slider ranges enforced by
the UI, not by the core, so the fields are unconstrained here. -/
structure AsciiSettings where
  resolution : ℚ
  contrast : ℚ
  brightness : ℚ
  invert : Bool
  charSetMode : CharSetMode

/-- The `CHAR_SETS` table of the AsciiCanvas component.  The `detail` entry is
the concatenation of the two JS string literals; `\x27` is the apostrophe,
`\x22` the double quote, `\x7b`/`\x7d` the braces and `\\` the single backslash
of the `ascii` entry. -/
def CHAR_SETS : CharSetMode → String
  | .halftone => " .·:+*?%S#@"
  | .detail => " `.-\x27:_,^=;><+!rc*/z?sLTv)J7(|Fi\x7bC\x7dfI31tlu[neoZ5Yxjya]2ESwqkP6h9d4VpOGbUAKXHm8RD#$Bg0MNWQ%&@"
  | .ascii => " .`^\x22,:;Il!i~+_-?][\x7d\x7b1)(|\\/tfjrxnuvczXYUJCLQ0OZmwqpdbkhao*#MW&8%B@$"
  | .binary => " 01"
  | .blocks => " ░▒▓█"

/-- The ramp strings exactly as §6 of the specification prints them (after
markdown code-span space stripping).  They differ from `CHAR_SETS` only in the
`detail` entry, where the spec shows a final `$` that the source does not have. -/
def SPEC_RAMPS : CharSetMode → String
  | .halftone => " .·:+*?%S#@"
  | .detail => " `.-\x27:_,^=;><+!rc*/z?sLTv)J7(|Fi\x7bC\x7dfI31tlu[neoZ5Yxjya]2ESwqkP6h9d4VpOGbUAKXHm8RD#$Bg0MNWQ%&@$"
  | .ascii => " .`^\x22,:;Il!i~+_-?][\x7d\x7b1)(|\\/tfjrxnuvczXYUJCLQ0OZmwqpdbkhao*#MW&8%B@$"
  | .binary => " 01"
  | .blocks => " ░▒▓█"

/-- Source line `fontSize = Math.max(minFont, Math.floor(maxFont - resolution*(maxFont-minFont)))`
with `minFont = 5`, `maxFont = 20` (processImage). -/
def fontSize (resolution : ℚ) : ℤ :=
  max 5 ⌊(20 : ℚ) - resolution * (20 - 5)⌋

/-- Source line `fontWidth = fontSize * 0.55` (processImage). -/
def fontWidth (resolution : ℚ) : ℚ :=
  (fontSize resolution : ℚ) * 0.55

/-- Source line `fontHeight = fontSize` (processImage). -/
def fontHeight (resolution : ℚ) : ℚ :=
  (fontSize resolution : ℚ)

/-- Source line `cols = Math.floor(img.width / (fontWidth / settings.resolution))` (processImage). -/
def rawCols (imgWidth resolution : ℚ) : ℤ :=
  ⌊imgWidth / (fontWidth resolution / resolution)⌋

/-- Source line `safeCols = Math.min(Math.max(cols, 40), 600)` (processImage). -/
def safeCols (imgWidth resolution : ℚ) : ℤ :=
  min (max (rawCols imgWidth resolution) 40) 600

/-- Source line `rows = Math.floor(safeCols * ratio * (fontWidth / fontHeight))` where
`ratio = img.height / img.width` (processImage). -/
def gridRows (imgWidth imgHeight resolution : ℚ) : ℤ :=
  ⌊(safeCols imgWidth resolution : ℚ) * (imgHeight / imgWidth) *
    (fontWidth resolution / fontHeight resolution)⌋

/-- Source line `contrastFactor = (259 * (settings.contrast * 255 + 255)) / (255 * (259 - settings.contrast * 255))`
(processImage). -/
def contrastFactor (contrast : ℚ) : ℚ :=
  (259 * (contrast * 255 + 255)) / (255 * (259 - contrast * 255))

/-- The per-cell tone value of the processImage loop: BT.601 luma, then
brightness, then the contrast map, then `Math.max(0, Math.min(255, gray))`,
then `255 - gray` when `settings.invert` is set. -/
def grayTone (s : AsciiSettings) (r g b : ℚ) : ℚ :=
  let gray := 0.299 * r + 0.587 * g + 0.114 * b
  let gray := gray + s.brightness
  let gray := contrastFactor s.contrast * (gray - 128) + 128
  let gray := max 0 (min 255 gray)
  if s.invert then 255 - gray else gray

/-- Source line `charIndex = Math.floor((gray / 255) * (charsLen - 1))` (processImage). -/
def charIndex (s : AsciiSettings) (r g b : ℚ) : ℤ :=
  ⌊grayTone s r g b / 255 * (((CHAR_SETS s.charSetMode).length : ℚ) - 1)⌋

/-- JS string indexing `str[i]`: a `Char` when `0 ≤ i < str.length`, otherwise
`undefined`, modelled as `none`. -/
def charAt (str : String) (i : ℤ) : Option Char :=
  if i < 0 then none else str.data.get? i.toNat

/-- One cell of the output grid: the loop paints `Glyph` via `fillText` exactly
when `char && char !== ' '`, and leaves the background (`Empty`) otherwise. -/
inductive CellResult where
  | empty
  | glyph (c : Char)
deriving DecidableEq

/-- The glyph decision of the processImage loop body for one sampled pixel
`(r, g, b)` (the alpha byte is never read). -/
def asciiCell (s : AsciiSettings) (r g b : ℕ) : CellResult :=
  match charAt (CHAR_SETS s.charSetMode) (charIndex s (r : ℚ) (g : ℚ) (b : ℚ)) with
  | none => .empty
  | some c => if c = ' ' then .empty else .glyph c

/-- The double loop of processImage over the sampled `cols × rows` RGBA buffer
`data`, reading bytes at `offset = (y * cols + x) * 4`, as a row-major glyph
grid. -/
def renderGrid (data : ℕ → ℕ) (s : AsciiSettings) (cols rows : ℕ) :
    List (List CellResult) :=
  (List.range rows).map fun y =>
    (List.range cols).map fun x =>
      let offset := (y * cols + x) * 4
      asciiCell s (data offset) (data (offset + 1)) (data (offset + 2))

/-- The clamp as §4.2 step 4 of the specification words it: `clamp(gray, 0, 255)`. -/
def specClamp (g : ℚ) : ℚ := min 255 (max 0 g)

/-- The per-cell tone value as §4.2 of the specification lists the steps:
luminance, brightness, contrast, clamp, invert — written from the spec's words,
to be compared with `grayTone`, which is written from the source. -/
def specGrayTone (s : AsciiSettings) (r g b : ℚ) : ℚ :=
  let g1 := 0.299 * r + 0.587 * g + 0.114 * b
  let g2 := g1 + s.brightness
  let g3 := contrastFactor s.contrast * (g2 - 128) + 128
  let g4 := specClamp g3
  if s.invert then 255 - g4 else g4

/-- Step 6 of §4.2 of the specification: `index = floor((gray/255) * (rampLength-1))`,
written from the spec's words. -/
def specCharIndex (s : AsciiSettings) (r g b : ℚ) : ℤ :=
  ⌊specGrayTone s r g b / 255 * (((CHAR_SETS s.charSetMode).length : ℚ) - 1)⌋

end LeAscii

namespace LeAscii

/-! ### Shared evaluation and bound lemmas -/

lemma clamp_swap (x : ℚ) : max 0 (min 255 x) = min 255 (max 0 x) := by
  rcases le_total x 0 with h | h <;> rcases le_total x 255 with h' | h' <;>
    simp [max_def, min_def] <;> split_ifs <;> linarith

lemma ramp_length_pos (m : CharSetMode) : 1 ≤ (CHAR_SETS m).length := by
  cases m <;> decide

lemma grayTone_bounds (s : AsciiSettings) (r g b : ℚ) :
    0 ≤ grayTone s r g b ∧ grayTone s r g b ≤ 255 := by
  simp only [grayTone]
  set c := contrastFactor s.contrast *
    (0.299 * r + 0.587 * g + 0.114 * b + s.brightness - 128) + 128 with hc
  have h1 : (0:ℚ) ≤ max 0 (min 255 c) := le_max_left _ _
  have h2 : max 0 (min 255 c) ≤ 255 := max_le (by norm_num) (min_le_left _ _)
  cases hinv : s.invert <;> simp only [hinv, if_true, if_false, Bool.false_eq_true] <;>
    constructor <;> linarith

lemma fontSize_five_le (r : ℚ) : 5 ≤ fontSize r := le_max_left _ _

lemma fontSize_anti {r1 r2 : ℚ} (h : r1 ≤ r2) : fontSize r2 ≤ fontSize r1 := by
  unfold fontSize
  have hq : (20:ℚ) - r2 * (20 - 5) ≤ 20 - r1 * (20 - 5) := by nlinarith
  exact max_le_max le_rfl (Int.floor_mono hq)

lemma fontSize_cast_pos (r : ℚ) : (0:ℚ) < (fontSize r : ℚ) := by
  have h := fontSize_five_le r
  have : (5:ℚ) ≤ (fontSize r : ℚ) := by exact_mod_cast h
  linarith

lemma fontWidth_pos (r : ℚ) : 0 < fontWidth r := by
  unfold fontWidth
  have := fontSize_cast_pos r
  nlinarith

lemma fontWidth_anti {r1 r2 : ℚ} (h : r1 ≤ r2) : fontWidth r2 ≤ fontWidth r1 := by
  unfold fontWidth
  have hf : (fontSize r2 : ℚ) ≤ (fontSize r1 : ℚ) := by exact_mod_cast fontSize_anti h
  nlinarith

lemma fw_div_fh (r : ℚ) : fontWidth r / fontHeight r = 11 / 20 := by
  unfold fontWidth fontHeight
  have h : ((fontSize r : ℚ)) ≠ 0 := (fontSize_cast_pos r).ne'
  rw [mul_comm, mul_div_assoc, div_self h, mul_one]
  norm_num

lemma fontSize_one : fontSize 1 = 5 := by
  have h : ⌊(20:ℚ) - 1 * (20 - 5)⌋ = 5 := by norm_num
  rw [fontSize, h]; decide

lemma fontSize_default : fontSize (7/10) = 9 := by
  have h : ⌊(20:ℚ) - 7/10 * (20 - 5)⌋ = 9 := by norm_num
  rw [fontSize, h]; decide

lemma safeCols_1000_eval : safeCols 1000 1 = 363 := by
  have hr : rawCols 1000 1 = 363 := by rw [rawCols, fontWidth, fontSize_one]; norm_num
  rw [safeCols, hr]; decide

lemma gridRows_1000_750_eval : gridRows 1000 750 1 = 149 := by
  rw [gridRows, safeCols_1000_eval, fontWidth, fontHeight, fontSize_one]; norm_num

lemma gridRows_wide_eval : gridRows 1000 1 1 = 0 := by
  rw [gridRows, safeCols_1000_eval, fontWidth, fontHeight, fontSize_one]; norm_num

lemma safeCols_100_eval : safeCols 100 (7/10) = 40 := by
  have hr : rawCols 100 (7/10) = 14 := by rw [rawCols, fontWidth, fontSize_default]; norm_num
  rw [safeCols, hr]; decide

lemma gridRows_100_eval : gridRows 100 100 (7/10) = 22 := by
  rw [gridRows, safeCols_100_eval, fontWidth, fontHeight, fontSize_default]; norm_num

end LeAscii

namespace LeAscii

lemma grayTone_black_default :
    grayTone ⟨7/10, 11/10, 0, false, .detail⟩ 0 0 0 = 255 := by
  norm_num [grayTone, contrastFactor, min_def, max_def]

lemma grayTone_white_inv_c11 :
    grayTone ⟨7/10, 11/10, 0, true, .detail⟩ 255 255 255 = 255 := by
  norm_num [grayTone, contrastFactor, min_def, max_def]

lemma grayTone_white_noinv_c11 :
    grayTone ⟨7/10, 11/10, 0, false, .detail⟩ 255 255 255 = 0 := by
  norm_num [grayTone, contrastFactor, min_def, max_def]

lemma grayTone_white_inv_c1 :
    grayTone ⟨7/10, 1, 0, true, .detail⟩ 255 255 255 = 0 := by
  norm_num [grayTone, contrastFactor, min_def, max_def]

lemma grayTone_white_noinv_c1 :
    grayTone ⟨7/10, 1, 0, false, .detail⟩ 255 255 255 = 255 := by
  norm_num [grayTone, contrastFactor, min_def, max_def]

lemma charIndex_black_default :
    charIndex ⟨7/10, 11/10, 0, false, .detail⟩ 0 0 0 = 91 := by
  rw [charIndex, grayTone_black_default]
  rw [show (CHAR_SETS (AsciiSettings.mk (7/10) (11/10) 0 false .detail).charSetMode).length
      = 92 from rfl]
  norm_num

lemma charIndex_white_inv_c11 :
    charIndex ⟨7/10, 11/10, 0, true, .detail⟩ 255 255 255 = 91 := by
  rw [charIndex, grayTone_white_inv_c11]
  rw [show (CHAR_SETS (AsciiSettings.mk (7/10) (11/10) 0 true .detail).charSetMode).length
      = 92 from rfl]
  norm_num

lemma charIndex_white_noinv_c11 :
    charIndex ⟨7/10, 11/10, 0, false, .detail⟩ 255 255 255 = 0 := by
  rw [charIndex, grayTone_white_noinv_c11]
  rw [show (CHAR_SETS (AsciiSettings.mk (7/10) (11/10) 0 false .detail).charSetMode).length
      = 92 from rfl]
  norm_num

lemma charIndex_white_inv_c1 :
    charIndex ⟨7/10, 1, 0, true, .detail⟩ 255 255 255 = 0 := by
  rw [charIndex, grayTone_white_inv_c1]
  rw [show (CHAR_SETS (AsciiSettings.mk (7/10) 1 0 true .detail).charSetMode).length
      = 92 from rfl]
  norm_num

lemma charIndex_white_noinv_c1 :
    charIndex ⟨7/10, 1, 0, false, .detail⟩ 255 255 255 = 91 := by
  rw [charIndex, grayTone_white_noinv_c1]
  rw [show (CHAR_SETS (AsciiSettings.mk (7/10) 1 0 false .detail).charSetMode).length
      = 92 from rfl]
  norm_num

lemma asciiCell_black_default :
    asciiCell ⟨7/10, 11/10, 0, false, .detail⟩ 0 0 0 = .glyph '@' := by
  rw [asciiCell]
  norm_num [charIndex_black_default]
  rw [show charAt (CHAR_SETS CharSetMode.detail) 91 = some '@' from rfl]
  decide

lemma asciiCell_white_inv_c11 :
    asciiCell ⟨7/10, 11/10, 0, true, .detail⟩ 255 255 255 = .glyph '@' := by
  rw [asciiCell]
  norm_num [charIndex_white_inv_c11]
  rw [show charAt (CHAR_SETS CharSetMode.detail) 91 = some '@' from rfl]
  decide

lemma asciiCell_white_noinv_c11 :
    asciiCell ⟨7/10, 11/10, 0, false, .detail⟩ 255 255 255 = .empty := by
  rw [asciiCell]
  norm_num [charIndex_white_noinv_c11]
  rw [show charAt (CHAR_SETS CharSetMode.detail) 0 = some ' ' from rfl]
  decide

lemma asciiCell_white_inv_c1 :
    asciiCell ⟨7/10, 1, 0, true, .detail⟩ 255 255 255 = .empty := by
  rw [asciiCell]
  norm_num [charIndex_white_inv_c1]
  rw [show charAt (CHAR_SETS CharSetMode.detail) 0 = some ' ' from rfl]
  decide

lemma asciiCell_white_noinv_c1 :
    asciiCell ⟨7/10, 1, 0, false, .detail⟩ 255 255 255 = .glyph '@' := by
  rw [asciiCell]
  norm_num [charIndex_white_noinv_c1]
  rw [show charAt (CHAR_SETS CharSetMode.detail) 91 = some '@' from rfl]
  decide

lemma renderGrid_const_black (s : AsciiSettings) (c : CellResult)
    (h : asciiCell s 0 0 0 = c) (cols rows : ℕ) :
    renderGrid (fun _ => 0) s cols rows =
      List.replicate rows (List.replicate cols c) := by
  simp only [renderGrid, h, List.map_const', List.length_range]

end LeAscii

namespace LeAscii

/-! ### Claims -/

/-- C1 (counterexample): on the 100×100 all-black bitmap with the default
settings (`contrast = 1.1`, `brightness = 0`, `invert = false`, `detail` ramp,
default `resolution = 0.7`, giving the 40×22 grid), every cell is
`Glyph '@'` — the ramp's last character — not `Empty`, so the claim fails. -/
theorem allBlack_default_cell_not_empty :
    safeCols 100 (7/10) = 40 ∧ gridRows 100 100 (7/10) = 22 ∧
      renderGrid (fun _ => 0) ⟨7/10, 11/10, 0, false, CharSetMode.detail⟩ 40 22 =
        List.replicate 22 (List.replicate 40 (CellResult.glyph '@')) ∧
      CellResult.glyph '@' ≠ CellResult.empty :=
  ⟨safeCols_100_eval, gridRows_100_eval,
    renderGrid_const_black _ _ asciiCell_black_default 40 22, by decide⟩

/-- C1 (amended): for a 100×100 all-black bitmap with settings `contrast = 1.1`,
`brightness = 0`, `invert = false` and the `detail` ramp, the mapper emits
`Glyph '@'` (ramp index 91, the last `detail` character) for every cell of the
output grid, whatever the grid geometry: at `contrast = 1.1` the contrast factor
is negative, so the black tone is mapped above 255, clamped to 255, and selects
the top of the ramp instead of the space at index 0. -/
theorem allBlack_default_grid_all_at_sign (cols rows : ℕ) :
    renderGrid (fun _ => 0) ⟨7/10, 11/10, 0, false, CharSetMode.detail⟩ cols rows =
      List.replicate rows (List.replicate cols (CellResult.glyph '@')) :=
  renderGrid_const_black _ _ asciiCell_black_default cols rows

/-- C1 witness: the amended theorem applied at the 1×1 grid. -/
theorem allBlack_default_grid_all_at_sign_witness :
    renderGrid (fun _ => 0) ⟨7/10, 11/10, 0, false, CharSetMode.detail⟩ 1 1 =
      List.replicate 1 (List.replicate 1 (CellResult.glyph '@')) :=
  allBlack_default_grid_all_at_sign 1 1

/-- C2 (confirmed): for every sampled cell and every settings record, the
per-cell pipeline of the source — BT.601 luma, plus brightness, the contrast
map `contrastFactor * (gray - 128) + 128`, the clamp to `[0, 255]`, the
optional inversion `255 - gray`, and the ramp index
`⌊(gray / 255) * (rampLength - 1)⌋` — computes exactly the composition the
spec lists, in that order: the source pipeline (`grayTone`, `charIndex`)
coincides with the spec-worded pipeline (`specGrayTone`, `specCharIndex`)
at every input. -/
theorem charIndex_eq_spec_pipeline (s : AsciiSettings) (r g b : ℚ) :
    grayTone s r g b = specGrayTone s r g b ∧
      charIndex s r g b = specCharIndex s r g b := by
  have h : grayTone s r g b = specGrayTone s r g b := by
    simp only [grayTone, specGrayTone, specClamp, clamp_swap]
  exact ⟨h, by rw [charIndex, specCharIndex, h]⟩

end LeAscii

namespace LeAscii

/-- C3 (counterexample): at `imageWidth = 1000`, `imageHeight = 1`,
`resolution = 1` — all within the claimed domain — the resolver returns
`rows = 0`, so `rows ≥ 1` fails. -/
theorem rows_zero_on_wide_image :
    (1:ℚ) ≤ 1000 ∧ (1:ℚ) ≤ 1 ∧ (1:ℚ)/10 ≤ 1 ∧ (1:ℚ) ≤ 1 ∧
      gridRows 1000 1 1 = 0 ∧ ¬ (1 ≤ gridRows 1000 1 1) := by
  refine ⟨by norm_num, le_refl 1, by norm_num, le_refl 1, gridRows_wide_eval, ?_⟩
  rw [gridRows_wide_eval]; decide

/-- C3 (amended): for every `imageWidth ≥ 1`, `imageHeight ≥ 1` and
`resolution ∈ [0.1, 1.0]`, the resolved column count satisfies
`40 ≤ cols ≤ 600`; the row count satisfies `rows ≥ 1` only under the extra
assumption `imageWidth ≤ imageHeight` — for sufficiently wide, short images
(e.g. 1000×1) the row count is 0. -/
theorem geometry_bounds_amended (w ht r : ℚ) (hw : 1 ≤ w) (hh : 1 ≤ ht)
    (hr0 : 1/10 ≤ r) (hr1 : r ≤ 1) :
    (40 ≤ safeCols w r ∧ safeCols w r ≤ 600) ∧ (w ≤ ht → 1 ≤ gridRows w ht r) := by
  refine ⟨⟨le_min (le_max_right _ _) (by norm_num), min_le_right _ _⟩, fun hwh => ?_⟩
  have hw0 : (0:ℚ) < w := lt_of_lt_of_le one_pos hw
  have hsc : (40:ℤ) ≤ safeCols w r := le_min (le_max_right _ _) (by norm_num)
  have hscq : (40:ℚ) ≤ (safeCols w r : ℚ) := by exact_mod_cast hsc
  have hratio2 : (1:ℚ) ≤ ht / w := (one_le_div hw0).mpr hwh
  rw [gridRows, fw_div_fh, Int.le_floor]
  have hmul : (40:ℚ) * 1 ≤ (safeCols w r : ℚ) * (ht / w) :=
    mul_le_mul hscq hratio2 (by norm_num) (by linarith)
  push_cast
  nlinarith

/-- C3 witness: the amended theorem at a 100×100 image with `resolution = 1`. -/
theorem geometry_bounds_amended_witness :
    (40 ≤ safeCols 100 1 ∧ safeCols 100 1 ≤ 600) ∧
      ((100:ℚ) ≤ 100 → 1 ≤ gridRows 100 100 1) :=
  geometry_bounds_amended 100 100 1 (by norm_num) (by norm_num) (by norm_num)
    (le_refl 1)

/-- C4 (counterexample): the `detail` ramp the code indexes into is not the §6
literal — the spec's string carries a final `$` that the source's does not. -/
theorem detail_ramp_differs_from_spec :
    CHAR_SETS CharSetMode.detail ≠ SPEC_RAMPS CharSetMode.detail := by decide

/-- C4 (amended): for `halftone`, `ascii`, `binary` and `blocks` the code's ramp
is exactly the §6 literal; for `detail` the code's ramp is the §6 literal with
its final `$` removed (92 characters in the code against 93 in the spec). -/
theorem ramps_match_spec_except_detail_dollar :
    CHAR_SETS CharSetMode.halftone = SPEC_RAMPS CharSetMode.halftone ∧
    CHAR_SETS CharSetMode.ascii = SPEC_RAMPS CharSetMode.ascii ∧
    CHAR_SETS CharSetMode.binary = SPEC_RAMPS CharSetMode.binary ∧
    CHAR_SETS CharSetMode.blocks = SPEC_RAMPS CharSetMode.blocks ∧
    CHAR_SETS CharSetMode.detail ++ "$" = SPEC_RAMPS CharSetMode.detail ∧
    (CHAR_SETS CharSetMode.detail).length = 92 ∧
    (SPEC_RAMPS CharSetMode.detail).length = 93 :=
  ⟨rfl, rfl, rfl, rfl, rfl, rfl, rfl⟩

/-- C5 (counterexample): with `resolution = 1.0` and a 1000-pixel-wide image the
resolver returns `cols = 363`, not the claimed clamp bound 600. -/
theorem cols_not_clamped_at_1000 :
    safeCols 1000 1 = 363 ∧ safeCols 1000 1 ≠ 600 := by
  refine ⟨safeCols_1000_eval, ?_⟩
  rw [safeCols_1000_eval]; decide

/-- C5 (amended): with `resolution = 1.0` and a 1000×750 source image the
resolver returns `cols = 363` — the upper clamp bound 600 does not bind (it
would need an image at least 1650 pixels wide) — and
`rows = ⌊cols * (750/1000) * 0.55⌋ = 149`, the image aspect ratio multiplied
by the cell aspect factor 0.55. -/
theorem scenarioD_cols363_rows149 :
    safeCols 1000 1 = 363 ∧ gridRows 1000 750 1 = 149 ∧
      gridRows 1000 750 1 = ⌊(363:ℚ) * (750/1000) * (11/20)⌋ := by
  refine ⟨safeCols_1000_eval, gridRows_1000_750_eval, ?_⟩
  rw [gridRows_1000_750_eval]
  norm_num

end LeAscii

namespace LeAscii

/-- C6 (counterexample): a uniform all-white pixel with `invert = true` and the
other settings at their defaults (`contrast = 1.1`, `brightness = 0`, `detail`
ramp) maps to ramp index 91 — the last glyph `@` — not to index 0 / `Empty`:
the negative contrast factor at `contrast = 1.1` sends the white tone to 0
before the inversion lifts it back to 255. -/
theorem white_invert_default_not_space :
    charIndex ⟨7/10, 11/10, 0, true, CharSetMode.detail⟩ 255 255 255 ≠ 0 ∧
      asciiCell ⟨7/10, 11/10, 0, true, CharSetMode.detail⟩ 255 255 255 ≠
        CellResult.empty := by
  rw [charIndex_white_inv_c11, asciiCell_white_inv_c11]
  exact ⟨by decide, by decide⟩

/-- C6 (amended): for a uniform all-white bitmap with `brightness = 0` and the
`detail` ramp, flipping `invert` always selects glyphs from opposite ends of
the ramp, but which end `invert = true` lands on depends on the sign of the
contrast factor: with `contrast = 1` (positive factor) `invert = true` gives
index 0 (`Empty`) and `invert = false` gives the last index 91; with the
default `contrast = 1.1` (negative factor) the ends are swapped —
`invert = true` gives index 91 (`Glyph '@'`) and `invert = false` gives
index 0 (`Empty`). -/
theorem white_invert_opposite_ends :
    (charIndex ⟨7/10, 1, 0, true, CharSetMode.detail⟩ 255 255 255 = 0 ∧
      asciiCell ⟨7/10, 1, 0, true, CharSetMode.detail⟩ 255 255 255 =
        CellResult.empty) ∧
    (charIndex ⟨7/10, 1, 0, false, CharSetMode.detail⟩ 255 255 255 = 91 ∧
      asciiCell ⟨7/10, 1, 0, false, CharSetMode.detail⟩ 255 255 255 =
        CellResult.glyph '@') ∧
    (charIndex ⟨7/10, 11/10, 0, true, CharSetMode.detail⟩ 255 255 255 = 91 ∧
      asciiCell ⟨7/10, 11/10, 0, true, CharSetMode.detail⟩ 255 255 255 =
        CellResult.glyph '@') ∧
    (charIndex ⟨7/10, 11/10, 0, false, CharSetMode.detail⟩ 255 255 255 = 0 ∧
      asciiCell ⟨7/10, 11/10, 0, false, CharSetMode.detail⟩ 255 255 255 =
        CellResult.empty) ∧
    (CHAR_SETS CharSetMode.detail).length - 1 = 91 :=
  ⟨⟨charIndex_white_inv_c1, asciiCell_white_inv_c1⟩,
   ⟨charIndex_white_noinv_c1, asciiCell_white_noinv_c1⟩,
   ⟨charIndex_white_inv_c11, asciiCell_white_inv_c11⟩,
   ⟨charIndex_white_noinv_c11, asciiCell_white_noinv_c11⟩, rfl⟩

/-- C7 (confirmed): for a fixed image, the resolved column count is monotone
non-decreasing in the resolution: a larger `resolution` shrinks `fontWidth`
and divides the width by a smaller cell, so `rawCols` grows, and the clamp
preserves monotonicity.  (The column count never reads `imageHeight`, so the
image height is fixed trivially.) -/
theorem cols_monotone_in_resolution (w r1 r2 : ℚ) (hw : 0 ≤ w)
    (h01 : 1/10 ≤ r1) (h12 : r1 ≤ r2) (h21 : r2 ≤ 1) :
    safeCols w r1 ≤ safeCols w r2 := by
  have hr1 : 0 < r1 := lt_of_lt_of_le (by norm_num) h01
  have hr2 : 0 < r2 := lt_of_lt_of_le hr1 h12
  have hD : fontWidth r2 / r2 ≤ fontWidth r1 / r1 :=
    div_le_div₀ (fontWidth_pos r1).le (fontWidth_anti h12) hr1 h12
  have hD2 : 0 < fontWidth r2 / r2 := div_pos (fontWidth_pos r2) hr2
  have hcols : rawCols w r1 ≤ rawCols w r2 := by
    unfold rawCols
    exact Int.floor_mono (div_le_div_of_nonneg_left hw hD2 hD)
  exact min_le_min (max_le_max hcols le_rfl) le_rfl

/-- C7 witness: monotonicity applied at `w = 1000`, `r1 = 1/10`, `r2 = 1`. -/
theorem cols_monotone_in_resolution_witness :
    safeCols 1000 (1/10) ≤ safeCols 1000 1 :=
  cols_monotone_in_resolution 1000 (1/10) 1 (by norm_num) (le_refl _)
    (by norm_num) (le_refl 1)

/-- C8 (confirmed): the render transform is deterministic — it is a pure
function of the sampled bitmap bytes and the settings, so two runs over
bitmaps that agree byte-for-byte produce identical glyph grids (the same
`Glyph`/`Empty` decision and the same character at every cell). -/
theorem renderGrid_deterministic (d1 d2 : ℕ → ℕ) (s : AsciiSettings)
    (cols rows : ℕ) (h : ∀ i, d1 i = d2 i) :
    renderGrid d1 s cols rows = renderGrid d2 s cols rows := by
  have hd : d1 = d2 := funext h
  rw [hd]

/-- C8 witness: determinism applied to two copies of the all-black buffer on a
2×2 grid. -/
theorem renderGrid_deterministic_witness :
    renderGrid (fun _ => 0) ⟨7/10, 11/10, 0, false, CharSetMode.detail⟩ 2 2 =
      renderGrid (fun _ => 0) ⟨7/10, 11/10, 0, false, CharSetMode.detail⟩ 2 2 :=
  renderGrid_deterministic (fun _ => 0) (fun _ => 0) _ 2 2 (fun _ => rfl)

/-- C9 (confirmed): for every settings record and every sampled tone inputs,
the computed ramp index lies in `[0, rampLength - 1]` — the clamp bounds the
tone to `[0, 255]` and inversion preserves that range — so the JS string
index `chars[charIndex]` is always in bounds and the selected character is
always defined (every `CHAR_SETS` ramp is non-empty). -/
theorem charIndex_always_in_bounds (s : AsciiSettings) (r g b : ℚ) :
    0 ≤ charIndex s r g b ∧
      charIndex s r g b < ((CHAR_SETS s.charSetMode).length : ℤ) ∧
      (charAt (CHAR_SETS s.charSetMode) (charIndex s r g b)).isSome = true := by
  obtain ⟨h0, h255⟩ := grayTone_bounds s r g b
  have hL1 : 1 ≤ (CHAR_SETS s.charSetMode).length := ramp_length_pos s.charSetMode
  have hLq : (1:ℚ) ≤ ((CHAR_SETS s.charSetMode).length : ℚ) := by exact_mod_cast hL1
  have hdiv0 : 0 ≤ grayTone s r g b / 255 := div_nonneg h0 (by norm_num)
  have hdiv1 : grayTone s r g b / 255 ≤ 1 := div_le_one_of_le₀ h255 (by norm_num)
  have hsub : (0:ℚ) ≤ ((CHAR_SETS s.charSetMode).length : ℚ) - 1 := by linarith
  have hge : 0 ≤ charIndex s r g b := by
    rw [charIndex]
    exact Int.le_floor.mpr (by push_cast; exact mul_nonneg hdiv0 hsub)
  have hlt : charIndex s r g b < ((CHAR_SETS s.charSetMode).length : ℤ) := by
    rw [charIndex]
    have hle : grayTone s r g b / 255 * (((CHAR_SETS s.charSetMode).length : ℚ) - 1) ≤
        ((CHAR_SETS s.charSetMode).length : ℚ) - 1 := mul_le_of_le_one_left hsub hdiv1
    have hfl := Int.floor_le_floor hle
    have hfloor : ⌊(((CHAR_SETS s.charSetMode).length : ℚ) - 1)⌋ =
        ((CHAR_SETS s.charSetMode).length : ℤ) - 1 := by
      rw [show (((CHAR_SETS s.charSetMode).length : ℚ) - 1) =
          ((((CHAR_SETS s.charSetMode).length : ℤ) - 1 : ℤ) : ℚ) by push_cast; ring,
        Int.floor_intCast]
    rw [hfloor] at hfl
    omega
  refine ⟨hge, hlt, ?_⟩
  rw [charAt, if_neg (not_lt.mpr hge)]
  have hlen : (CHAR_SETS s.charSetMode).data.length = (CHAR_SETS s.charSetMode).length := rfl
  have htn : (charIndex s r g b).toNat < (CHAR_SETS s.charSetMode).data.length := by
    rw [hlen]; omega
  rw [List.get?_eq_getElem?]
  simp [List.getElem?_eq_getElem htn]

/-- C10 (confirmed): for every contrast strictly above `259/255 ≈ 1.016` —
including the default 1.1 — the denominator `259 - contrast * 255` is
negative, so `contrastFactor` is negative and the pre-clamp contrast map
`gray ↦ contrastFactor * (gray - 128) + 128` is strictly decreasing: darker
input tones map to brighter pre-clamp tones and vice versa. -/
theorem contrastFactor_neg_and_decreasing (c : ℚ) (hc : 259/255 < c) :
    contrastFactor c < 0 ∧
      ∀ g1 g2 : ℚ, g1 < g2 →
        contrastFactor c * (g2 - 128) + 128 < contrastFactor c * (g1 - 128) + 128 := by
  have h259 : (259:ℚ) < c * 255 := by
    have := (div_lt_iff₀ (by norm_num : (0:ℚ) < 255)).mp hc
    linarith
  have hnum : (0:ℚ) < 259 * (c * 255 + 255) := by nlinarith
  have hden : (255:ℚ) * (259 - c * 255) < 0 := by nlinarith
  have hf : contrastFactor c < 0 := by
    rw [contrastFactor]; exact div_neg_of_pos_of_neg hnum hden
  refine ⟨hf, fun g1 g2 h12 => ?_⟩
  have := mul_lt_mul_of_neg_left (by linarith : g1 - 128 < g2 - 128) hf
  linarith

/-- C10 witness: the default contrast 1.1 gives a negative factor, and the
contrast map sends the brighter input 255 strictly below the darker input 0. -/
theorem contrastFactor_neg_and_decreasing_witness :
    contrastFactor (11/10) < 0 ∧
      contrastFactor (11/10) * ((255:ℚ) - 128) + 128 <
        contrastFactor (11/10) * ((0:ℚ) - 128) + 128 :=
  ⟨(contrastFactor_neg_and_decreasing (11/10) (by norm_num)).1,
    (contrastFactor_neg_and_decreasing (11/10) (by norm_num)).2 0 255 (by norm_num)⟩

end LeAscii
